import Mathlib

/-!
Verification of the FA gallery downloader's content-acquisition pipeline.

This file is a shallow embedding, in Lean 4, of the parts of the program
that the claims under scrutiny concern:

* the persistent store (db module: table subdata, table favorites), its
  mutators (setContentSaved, setContentNotSaved, setContentMoved,
  setContentMissing, setThumbnailMissing, setThumbnailSaved, saveMetaData,
  saveLinks, saveFavorites, deleteSubmission) and its queries
  (getAllUnmovedContentData, getAllUnsavedContent, getAllUnsavedThumbnails,
  getAllInvalidFiles, getSubmissionOwner, getAllSubmissionsForUser);
* the download worker (downloadSetup, downloadSpecificContent,
  deleteInvalidFiles) together with its retry loop;
* the gallery walker (isSubmissionProcessed and the page loop of the link
  scraper) and the metadata-harvest loop of scrapeSubmissionInfo.

SQLite rows are modelled as Lean structures: TEXT columns that may be NULL
become Option String, INTEGER 0/1 flag columns become Bool.  The network,
the filesystem and the random politeness delays are modelled as explicit
inputs (oracles) where a claim depends on them, and elided where no claim
does.  Every definition is executable so that concrete scenarios can be
settled by evaluation.
-/

/-- One row of the subdata table.  Field names and defaults follow the
CREATE TABLE statement in the db module (id TEXT PRIMARY KEY, url TEXT
UNIQUE ON CONFLICT IGNORE, flag columns INTEGER DEFAULT 0). -/
structure SubRow where
  id : Option String := none
  title : Option String := none
  desc : Option String := none
  tags : Option String := none
  url : String
  is_scrap : Bool := false
  date_uploaded : Option String := none
  content_url : Option String := none
  content_name : Option String := none
  is_content_saved : Bool := false
  username : Option String := none
  account_name : Option String := none
  rating : Option String := none
  category : Option String := none
  thumbnail_url : Option String := none
  thumbnail_name : Option String := none
  is_thumbnail_saved : Bool := false
  thumbnail_missing : Bool := false
  content_missing : Bool := false
  moved_content : Bool := false
  is_favorite : Bool := false
  favorite_username : Option String := none
  content_owner : Option String := none
deriving DecidableEq, Repr

/-- One row of the favorites table (id TEXT PRIMARY KEY, username, url,
UNIQUE(username, url) ON CONFLICT REPLACE). -/
structure FavRow where
  id : String
  username : String
  url : String
deriving DecidableEq, Repr

/-- The persistent store: the two tables the claims touch. -/
structure Store where
  subdata : List SubRow := []
  favorites : List FavRow := []
deriving DecidableEq, Repr

/-- Structural character-list helpers.  The embedding avoids the core
String search and comparison loops in favour of structural recursion over
the character list, so that concrete scenarios reduce inside the kernel;
on the ASCII data involved the behaviour is the same. -/
def charsPrefixOf : List Char → List Char → Bool
  | [], _ => true
  | _ :: _, [] => false
  | a :: as, b :: bs => a == b && charsPrefixOf as bs

/-- Whether the first character list occurs somewhere in the second. -/
def charsContains : List Char → List Char → Bool
  | pat, [] => pat.isEmpty
  | pat, c :: cs => charsPrefixOf pat (c :: cs) || charsContains pat cs

/-- Lexicographic comparison by code point, the ordering SQLite uses for
the ASCII file names ORDER BY content_name ranges over. -/
def charsLe : List Char → List Char → Bool
  | [], _ => true
  | _ :: _, [] => false
  | a :: as, b :: bs =>
    if a.toNat < b.toNat then true
    else if b.toNat < a.toNat then false
    else charsLe as bs

/-- Whether a string ends with a period. -/
def strEndsWithDot (s : String) : Bool :=
  match s.data.getLast? with
  | some c => c == '.'
  | none => false

/-- Case-insensitive LIKE-style containment test used for patterns of the
shape nopercent wrapped in percent signs: col LIKE p needs p somewhere in
col (SQLite LIKE is case-insensitive on ASCII). -/
def likeContains (col : Option String) (pat : String) : Bool :=
  match col with
  | none => false
  | some s => charsContains (pat.data.map Char.toLower) (s.data.map Char.toLower)

/-- col LIKE a pattern ending in a period with a leading percent sign: the
column value ends with a period.  A NULL column never matches (SQL
three-valued logic drops the row both for LIKE and NOT LIKE). -/
def likeEndsWithDot (col : Option String) : Bool :=
  match col with
  | none => false
  | some s => strEndsWithDot s

/-- SQL construct col NOT LIKE a trailing-period pattern: NULL yields NULL,
so the row is dropped; otherwise the value must not end with a period. -/
def notLikeEndsWithDot (col : Option String) : Bool :=
  match col with
  | none => false
  | some s => !(strEndsWithDot s)

/-- Sort key for ORDER BY content_name (NULLs first under ASC; the queries
below never return NULL names where it matters). -/
def nameKey (r : SubRow) : String := r.content_name.getD ""

/-- ORDER BY content_name DESC. -/
def sortByNameDesc (l : List SubRow) : List SubRow :=
  l.insertionSort (fun a b => charsLe (nameKey b).data (nameKey a).data = true)

/-- ORDER BY content_name ASC. -/
def sortByNameAsc (l : List SubRow) : List SubRow :=
  l.insertionSort (fun a b => charsLe (nameKey a).data (nameKey b).data = true)

/-- Row effect of db setContentSaved: UPDATE subdata SET is_content_saved
= 1, moved_content = 1 WHERE content_url = the given url. -/
def contentSavedRow (cu : String) (r : SubRow) : SubRow :=
  if r.content_url == some cu then
    { r with is_content_saved := true, moved_content := true }
  else r

/-- db setContentSaved. -/
def setContentSaved (cu : String) (s : Store) : Store :=
  { s with subdata := s.subdata.map (contentSavedRow cu) }

/-- Row effect of db setContentNotSaved: UPDATE subdata SET
is_content_saved = 0, moved_content = 1 WHERE content_url = the url. -/
def contentNotSavedRow (cu : String) (r : SubRow) : SubRow :=
  if r.content_url == some cu then
    { r with is_content_saved := false, moved_content := true }
  else r

/-- db setContentNotSaved. -/
def setContentNotSaved (cu : String) (s : Store) : Store :=
  { s with subdata := s.subdata.map (contentNotSavedRow cu) }

/-- Row effect of db setContentMoved: UPDATE subdata SET moved_content = 1
WHERE content_name = the name. -/
def contentMovedRow (cn : String) (r : SubRow) : SubRow :=
  if r.content_name == some cn then { r with moved_content := true } else r

/-- db setContentMoved. -/
def setContentMoved (cn : String) (s : Store) : Store :=
  { s with subdata := s.subdata.map (contentMovedRow cn) }

/-- Row effect of db setContentMissing: UPDATE subdata SET content_missing
= 1 WHERE content_name = the name. -/
def contentMissingRow (cn : String) (r : SubRow) : SubRow :=
  if r.content_name == some cn then { r with content_missing := true } else r

/-- db setContentMissing. -/
def setContentMissing (cn : String) (s : Store) : Store :=
  { s with subdata := s.subdata.map (contentMissingRow cn) }

/-- Row effect of db setThumbnailMissing: UPDATE subdata SET
thumbnail_missing = 1 WHERE thumbnail_url = the url. -/
def thumbnailMissingRow (tu : String) (r : SubRow) : SubRow :=
  if r.thumbnail_url == some tu then { r with thumbnail_missing := true } else r

/-- db setThumbnailMissing. -/
def setThumbnailMissing (tu : String) (s : Store) : Store :=
  { s with subdata := s.subdata.map (thumbnailMissingRow tu) }

/-- Row effect of db setThumbnailSaved: UPDATE subdata SET
is_thumbnail_saved = 1, thumbnail_url = ?, thumbnail_name = ? WHERE url =
the submission url. -/
def thumbnailSavedRow (u tu tn : String) (r : SubRow) : SubRow :=
  if r.url == u then
    { r with is_thumbnail_saved := true, thumbnail_url := some tu,
             thumbnail_name := some tn }
  else r

/-- db setThumbnailSaved. -/
def setThumbnailSaved (u tu tn : String) (s : Store) : Store :=
  { s with subdata := s.subdata.map (thumbnailSavedRow u tu tn) }

/-- db deleteSubmission: DELETE FROM subdata WHERE url = the given url. -/
def deleteSubmission (u : String) (s : Store) : Store :=
  { s with subdata := s.subdata.filter (fun r => !(r.url == u)) }

/-- db getAllUnmovedContentData: SELECT rows WHERE is_content_saved = 1
AND moved_content = 0. -/
def getAllUnmovedContentData (s : Store) : List SubRow :=
  s.subdata.filter (fun r => r.is_content_saved && !r.moved_content)

/-- Name filter of db getAllUnsavedContent: with an argument, username
LIKE the pattern OR account_name LIKE it; otherwise username IS NOT NULL. -/
def unsavedNameCond (name : Option String) (r : SubRow) : Bool :=
  match name with
  | some n => likeContains r.username n || likeContains r.account_name n
  | none => r.username.isSome

/-- db getAllUnsavedContent: rows WHERE is_content_saved = 0 AND
content_missing = 0 AND content_url IS NOT NULL AND content_name NOT LIKE
a trailing-period pattern, plus the name filter, ORDER BY content_name
DESC. -/
def getAllUnsavedContent (name : Option String) (s : Store) : List SubRow :=
  sortByNameDesc (s.subdata.filter (fun r =>
    !r.is_content_saved && !r.content_missing && r.content_url.isSome &&
    notLikeEndsWithDot r.content_name && unsavedNameCond name r))

/-- db getAllUnsavedThumbnails: rows WHERE is_thumbnail_saved = 0 AND
username IS NOT NULL AND thumbnail_missing = 0 AND content_url LIKE one of
the stories, music or poetry patterns, ORDER BY content_name DESC. -/
def getAllUnsavedThumbnails (s : Store) : List SubRow :=
  sortByNameDesc (s.subdata.filter (fun r =>
    !r.is_thumbnail_saved && r.username.isSome && !r.thumbnail_missing &&
    (likeContains r.content_url "/stories/" ||
     likeContains r.content_url "/music/" ||
     likeContains r.content_url "/poetry/")))

/-- db getAllInvalidFiles: rows WHERE content_name LIKE a trailing-period
pattern AND is_content_saved = 1. -/
def getAllInvalidFiles (s : Store) : List SubRow :=
  s.subdata.filter (fun r =>
    likeEndsWithDot r.content_name && r.is_content_saved)

/-- db getSubmissionOwner: db.get (first row) WHERE content_url = the url
OR url = the url. -/
def getSubmissionOwner (s : Store) (u : String) : Option SubRow :=
  s.subdata.find? (fun r => r.content_url == some u || r.url == u)

/-- db getAllSubmissionsForUser: rows WHERE (username = ? OR account_name
= ?) AND is_content_saved = 1 AND id IS NOT NULL ORDER BY content_name
ASC. -/
def getAllSubmissionsForUser (s : Store) (u : String) : List SubRow :=
  sortByNameAsc (s.subdata.filter (fun r =>
    (r.username == some u || r.account_name == some u) &&
    r.is_content_saved && r.id.isSome))

/-- Key filter of db saveMetaData: the source keeps a property only when
its value is neither undefined nor null and its name matches the regular
expression anchored-alphanumeric-or-underscore (one or more). -/
def validKey (k : String) : Bool :=
  !k.isEmpty && k.data.all (fun c => c.isAlphanum || c == '_')

/-- Result of db saveMetaData.  invalidParams models the thrown Error for
a non-string url or non-object data argument (unreachable for the typed
inputs used here); noValidData models the warn-and-return-null path;
update carries the generated SET fragments and the bound parameters (the
values in key order, then the url for the WHERE clause). -/
inductive MetaOutcome
  | invalidParams
  | noValidData
  | update (sets : List String) (params : List String)
deriving DecidableEq, Repr

/-- db saveMetaData: filters the property list by validKey and value
presence, then either warns and returns null (no statement ran) or runs
UPDATE subdata SET the kept fragments WHERE url = ?.  Values are modelled
as Option String, none standing for undefined or null. -/
def saveMetaData (url : String) (d : List (String × Option String)) : MetaOutcome :=
  let entries := d.filter (fun kv => kv.2.isSome && validKey kv.1)
  if entries.isEmpty then .noValidData
  else .update (entries.map (fun kv => kv.1 ++ " = ?"))
    ((entries.filterMap (fun kv => kv.2)) ++ [url])

/-- The columns of the subdata table, from its CREATE TABLE statement:
the only field names an allow-list for saveMetaData could admit. -/
def subdataColumns : List String :=
  ["id", "title", "desc", "tags", "url", "is_scrap", "date_uploaded",
   "content_url", "content_name", "is_content_saved", "username",
   "account_name", "rating", "category", "thumbnail_url", "thumbnail_name",
   "is_thumbnail_saved", "thumbnail_missing", "content_missing",
   "moved_content", "is_favorite", "favorite_username", "content_owner"]

/-- One VALUES row of db saveLinks: url, username, is_scrap,
is_content_saved = false; every other column takes its schema default.
The UNIQUE ON CONFLICT IGNORE clause on url silently skips a url that is
already present. -/
def insertLinkRow (username : String) (isScraps : Bool) (s : Store) (u : String) : Store :=
  if s.subdata.any (fun r => r.url == u) then s
  else
    { s with subdata := s.subdata ++
        [{ url := u, username := some username, is_scrap := isScraps,
           is_content_saved := false }] }

/-- Effect on the store of the multi-row INSERT built by db saveLinks,
one VALUES group per link, each subject to the conflict-ignore clause. -/
def saveLinksApply (links : List String) (isScraps : Bool) (username : String)
    (s : Store) : Store :=
  links.foldl (insertLinkRow username isScraps) s

/-- Errors of the modelled SQL layer. -/
inductive DbErr
  | emptyValues
deriving DecidableEq, Repr

/-- Model of db.run for the INSERT statement genericInsert builds for
subdata: SQLite's grammar requires at least one row after VALUES, so an
empty placeholder list yields a syntax error and the promise rejects. -/
def runInsertSubdata (placeholders : List String) (links : List String)
    (isScraps : Bool) (username : String) (s : Store) : Except DbErr Store :=
  if placeholders.isEmpty then .error .emptyValues
  else .ok (saveLinksApply links isScraps username s)

/-- db saveLinks: builds one placeholder group per link (the source builds
a question-mark group per value row) and hands them to genericInsert,
which interpolates them into INSERT INTO subdata ... VALUES and runs it. -/
def saveLinks (links : List String) (isScraps : Bool) (username : String)
    (s : Store) : Except DbErr Store :=
  let placeholder := links.map (fun _ => "(?,?,?,?)")
  runInsertSubdata placeholder links isScraps username s

/-- Outcome of db saveFavorites: nullRes models the warn-and-return-null
paths, okRes the committed transaction (the source reports links.length as
the change count), errRes a thrown error after ROLLBACK. -/
inductive FavOutcome
  | nullRes
  | okRes (changes : Nat)
  | errRes
deriving DecidableEq, Repr

/-- Multi-row INSERT INTO favorites: per row, the UNIQUE(username, url) ON
CONFLICT REPLACE clause replaces an existing relation for the same pair,
while a clash on the TEXT PRIMARY KEY id alone (possible because id is the
username and the url joined by an underscore, which is ambiguous) aborts
the statement with an error, returning none. -/
def insertFavRows (rows : List FavRow) (favs : List FavRow) : Option (List FavRow) :=
  match rows with
  | [] => some favs
  | r :: rest =>
    if favs.any (fun e => e.username == r.username && e.url == r.url) then
      insertFavRows rest
        ((favs.filter (fun e => !(e.username == r.username && e.url == r.url))) ++ [r])
    else if favs.any (fun e => e.id == r.id) then none
    else insertFavRows rest (favs ++ [r])

/-- Row effect of the per-url UPDATE inside db saveFavorites: SET
is_favorite = 1, favorite_username = ? WHERE url = ?. -/
def markFavoriteRow (username u : String) (r : SubRow) : SubRow :=
  if r.url == u then
    { r with is_favorite := true, favorite_username := some username }
  else r

/-- The per-url UPDATE inside db saveFavorites. -/
def markFavorite (username u : String) (s : Store) : Store :=
  { s with subdata := s.subdata.map (markFavoriteRow username u) }

/-- db saveFavorites.  Links are Option String, none standing for an entry
that fails validateInput (null, undefined, or not a string) and is
skipped.  The whole body runs inside BEGIN TRANSACTION; a statement error
triggers ROLLBACK (the store reverts to its argument) and the rethrow is
reported as errRes, while success ends in COMMIT. -/
def saveFavorites (username : String) (links : List (Option String))
    (s : Store) : FavOutcome × Store :=
  if links.isEmpty then (.nullRes, s)
  else
    let valid := links.filterMap id
    if valid.isEmpty then (.nullRes, s)
    else
      let favRows := valid.map (fun u => FavRow.mk (username ++ "_" ++ u) username u)
      match insertFavRows favRows s.favorites with
      | none => (.errRes, s)
      | some favs =>
        let s2 := valid.foldl (fun st u => markFavorite username u st)
          { s with favorites := favs }
        (.okRes links.length, s2)

/-- The field object the metadata harvester assembles from a submission
page and passes to db saveMetaData.  tags may be undefined (the regex
match can fail), in which case the key is dropped by saveMetaData's
filter; every other value is a string. -/
structure HarvestData where
  id : String
  title : String
  username : String
  account_name : String
  desc : String
  tags : Option String
  content_name : String
  content_url : String
  date_uploaded : String
  thumbnail_url : String
  rating : String
  category : String
  content_owner : String
deriving DecidableEq, Repr

/-- Row effect of db saveMetaData when called with the harvester's field
object for a matching url: all its keys pass validKey, so each present
value lands in its column. -/
def harvestMetaRow (u : String) (d : HarvestData) (r : SubRow) : SubRow :=
  if r.url == u then
    { r with id := some d.id, title := some d.title,
             username := some d.username, account_name := some d.account_name,
             desc := some d.desc,
             tags := match d.tags with | some t => some t | none => r.tags,
             content_name := some d.content_name,
             content_url := some d.content_url,
             date_uploaded := some d.date_uploaded,
             thumbnail_url := some d.thumbnail_url, rating := some d.rating,
             category := some d.category, content_owner := some d.content_owner }
  else r

/-- db saveMetaData applied with the harvester's field object. -/
def applyHarvestMeta (u : String) (d : HarvestData) (s : Store) : Store :=
  { s with subdata := s.subdata.map (harvestMetaRow u d) }

/-- Row effect of db saveMetaData when the walker flags a favorite:
is_favorite = 1, favorite_username = the walking username. -/
def favoriteMetaRow (u favUser : String) (r : SubRow) : SubRow :=
  if r.url == u then
    { r with is_favorite := true, favorite_username := some favUser }
  else r

/-- db saveMetaData applied with the walker's favorite-flag object. -/
def applyFavoriteMeta (u favUser : String) (s : Store) : Store :=
  { s with subdata := s.subdata.map (favoriteMetaRow u favUser) }

/-- The store mutations the pipeline performs, each with the argument
shape of its call sites: the download workers (setContentSaved,
setContentMissing, setThumbnailSaved, setThumbnailMissing), the reconciler
(setContentMoved, setContentNotSaved), the harvester (saveMetaData with
its fixed field object, deleteSubmission) and the walker (saveLinks,
saveFavorites, saveMetaData with the favorite-flag object). -/
inductive Op
  | opContentSaved (content_url : String)
  | opContentNotSaved (content_url : String)
  | opContentMoved (content_name : String)
  | opContentMissing (content_name : String)
  | opThumbnailMissing (thumbnail_url : String)
  | opThumbnailSaved (url thumbnail_url thumbnail_name : String)
  | opHarvestMeta (url : String) (d : HarvestData)
  | opFavoriteMeta (url favorite_username : String)
  | opSaveLinks (links : List String) (isScraps : Bool) (username : String)
  | opSaveFavorites (username : String) (links : List (Option String))
  | opDeleteSubmission (url : String)

/-- The store after one pipeline operation. -/
def applyOp : Op → Store → Store
  | .opContentSaved cu, s => setContentSaved cu s
  | .opContentNotSaved cu, s => setContentNotSaved cu s
  | .opContentMoved cn, s => setContentMoved cn s
  | .opContentMissing cn, s => setContentMissing cn s
  | .opThumbnailMissing tu, s => setThumbnailMissing tu s
  | .opThumbnailSaved u tu tn, s => setThumbnailSaved u tu tn s
  | .opHarvestMeta u d, s => applyHarvestMeta u d s
  | .opFavoriteMeta u f, s => applyFavoriteMeta u f s
  | .opSaveLinks links b un, s => saveLinksApply links b un s
  | .opSaveFavorites un links, s => (saveFavorites un links s).2
  | .opDeleteSubmission u, s => deleteSubmission u s

/-- The download module's retry budget (its maxRetries constant). -/
def maxRetries : Nat := 5

/-- How a downloadSetup call settles.  resolved is the finish event of the
write stream; resolvedNothing is the promise fulfilling with undefined
because the catch handler ran out of retries and returned nothing — note
that this, too, is a fulfilled promise; rejectedNoError is the bare
reject() on a trailing-period file name; the remaining constructors carry
the message of the Error the promise was rejected with. -/
inductive DlResult
  | resolvedFalse
  | resolved
  | resolvedNothing
  | rejectedNoError
  | rejectedUsername
  | rejectedSiteDown
  | rejectedNotFound
deriving DecidableEq, Repr

/-- The download worker's environment: the global stop flag, the header
probe for the content url, the site-wide reachability probe, and a stream
oracle telling whether the transfer numbered by its retryCount completes
(false covers both transport and disk-write failure, which share one
rejection path in the source). -/
structure DlEnv where
  stopNow : Bool
  urlExists : Bool
  siteActive : Bool
  streamOk : Nat → Bool

/-- The stream-and-retry part of downloadSetup: try the transfer; on
failure delete the partial file and, while retryCount is below maxRetries,
recurse with retryCount + 1; once the budget is spent the catch handler
returns undefined, fulfilling the promise.  fuel is maxRetries + 1 minus
retryCount at every call, so the zero-fuel branch is unreachable. -/
def downloadAttempts (streamOk : Nat → Bool) : Nat → Nat → DlResult
  | _, 0 => .resolvedNothing
  | retryCount, fuel + 1 =>
    if streamOk retryCount then .resolved
    else if retryCount < maxRetries then downloadAttempts streamOk (retryCount + 1) fuel
    else .resolvedNothing

/-- The username guard at the top of downloadSetup and of
downloadSpecificContent: a value is rejected when it is falsy, not a
string, or trims to the empty string. -/
def validUsernameStr (u : String) : Bool := !(u.data.all Char.isWhitespace)

/-- The JavaScript or-chain over possibly null, possibly empty strings:
the first truthy value, or the empty string. -/
def jsOr (a b : Option String) : String :=
  match a with
  | some x => if x.isEmpty then (match b with | some y => y | none => "") else x
  | none => match b with | some y => y | none => ""

/-- The replace call that rewrites a trailing period of a username to
period-underscore before it is used as a directory name. -/
def sanitizeTrailingDot (s : String) : String :=
  if strEndsWithDot s then String.mk (s.data.dropLast ++ ['.', '_']) else s

/-- downloadSetup from the download module.  The content url and the
subfolder only feed the path and the oracles, so they are not separate
arguments here; stop flag, username guard, trailing-period check, header
probe, stream loop and the not-found classification follow the source
order. -/
def downloadSetup (env : DlEnv) (content_name username : String) : DlResult :=
  if env.stopNow then .resolvedFalse
  else if !(validUsernameStr username) then .rejectedUsername
  else if strEndsWithDot content_name then .rejectedNoError
  else if env.urlExists then downloadAttempts env.streamOk 0 (maxRetries + 1)
  else if !env.siteActive then .rejectedSiteDown
  else .rejectedNotFound

/-- downloadSpecificContent: on a fulfilled downloadSetup promise —
whatever it fulfilled with — the then-handler calls db setContentSaved; a
rejection without an error value is skipped; a site-down rejection raises
the global stop flag; a not-found rejection calls db setContentMissing on
the content name.  Returns the store and the stop flag afterwards. -/
def downloadSpecificContent (env : DlEnv) (row : SubRow) (s : Store) : Store × Bool :=
  if env.stopNow then (s, env.stopNow)
  else
    let account_name := jsOr row.account_name row.username
    if !(validUsernameStr account_name) then (s, env.stopNow)
    else
      match downloadSetup env (row.content_name.getD "")
          (sanitizeTrailingDot account_name) with
      | .resolvedFalse => (setContentSaved (row.content_url.getD "") s, env.stopNow)
      | .resolved => (setContentSaved (row.content_url.getD "") s, env.stopNow)
      | .resolvedNothing => (setContentSaved (row.content_url.getD "") s, env.stopNow)
      | .rejectedNoError => (s, env.stopNow)
      | .rejectedUsername => (s, env.stopNow)
      | .rejectedSiteDown => (s, true)
      | .rejectedNotFound => (setContentMissing (row.content_name.getD "") s, env.stopNow)

/-- Root of the download tree.  The actual value lives in constants.js,
outside the provided sources; it is an opaque path prefix here. -/
def ARTIST_DIR : String := "fa_gallery_downloader"

/-- node path join, for the paths this model needs. -/
def pathJoin : List String → String
  | [] => ""
  | [p] => p
  | p :: rest => p ++ "/" ++ pathJoin rest

/-- The on-disk location deleteInvalidFiles computes for a broken record:
ARTIST_DIR, account_name, gallery, content_name. -/
def invalidFileLocation (r : SubRow) : String :=
  pathJoin [ARTIST_DIR, r.account_name.getD "", "gallery", r.content_name.getD ""]

/-- The for-loop of deleteInvalidFiles: per broken record, fs.remove its
location and db setContentNotSaved on its content url.  The filesystem is
a list of paths. -/
def deleteLoop : List SubRow → Store → List String → Store × List String
  | [], s, fsys => (s, fsys)
  | f :: rest, s, fsys =>
    deleteLoop rest (setContentNotSaved (f.content_url.getD "") s)
      (fsys.filter (fun p => p ≠ invalidFileLocation f))

/-- deleteInvalidFiles from the download module: fetch the invalid-file
records and run the removal loop over them. -/
def deleteInvalidFiles (s : Store) (fsys : List String) : Store × List String :=
  deleteLoop (getAllInvalidFiles s) s fsys

/-- isSubmissionProcessed from the scrape module, the walker's filter.  It
consults getSubmissionOwner, then getAllSubmissionsForUser, then the
saved flag; the final on-disk check dereferences downloadDir, a name not
defined (and not imported) in that module, so it raises a ReferenceError
that the surrounding inner catch swallows, after which control falls
through to the function's final return false.  Every path therefore
returns false. -/
def isSubmissionProcessed (s : Store) (submissionUrl username : String) : Bool :=
  if submissionUrl.isEmpty then false
  else
    match getSubmissionOwner s submissionUrl with
    | none => false
    | some owner =>
      let ownerName := jsOr owner.username owner.account_name
      if ownerName.isEmpty then false
      else
        let subs := getAllSubmissionsForUser s ownerName
        match subs.find? (fun m => m.url == submissionUrl ||
            m.content_url == some submissionUrl) with
        | none => false
        | some m =>
          if !m.is_content_saved then false
          else if m.content_name.isSome && !username.isEmpty then false
          else false

/-- Counters and store at the end of a walk. -/
structure WalkResult where
  store : Store
  currLinks : Nat
  newLinks : Nat
deriving DecidableEq, Repr

/-- The page loop of the walker's getSubmissionLinks for a gallery or
scraps walk (the favorites-only branches — next-page cursor, saveFavorites
and the favorite-flag metadata writes — are guarded by isFavorites and do
not run here).  Input is the link list of each successfully fetched page;
an empty page breaks the loop.  Per page: filter through
isSubmissionProcessed, add the survivors' count to newLinks, skip the page
if none survive, otherwise persist through saveLinks and add newLinks to
currLinks. -/
def walkPages (username : String) (isScraps : Bool) :
    List (List String) → Store → Nat → Nat → WalkResult
  | [], s, currLinks, newLinks => ⟨s, currLinks, newLinks⟩
  | page :: rest, s, currLinks, newLinks =>
    if page.isEmpty then ⟨s, currLinks, newLinks⟩
    else
      let filteredLinks := page.filter (fun l => !(isSubmissionProcessed s l username))
      let newLinks2 := newLinks + filteredLinks.length
      if filteredLinks.isEmpty then
        walkPages username isScraps rest s currLinks newLinks2
      else
        walkPages username isScraps rest
          (saveLinksApply filteredLinks isScraps username s)
          (currLinks + newLinks2) newLinks2

/-- The end-of-walk log line: submissions found, new submissions to
download, already downloaded (currLinks minus newLinks). -/
def walkReport (w : WalkResult) : Nat × Nat × Nat :=
  (w.currLinks, w.newLinks, w.currLinks - w.newLinks)

/-- The scrape module's retry budget (its maxRetries constant). -/
def maxRetriesScrape : Nat := 6

/-- Observable events of the metadata-harvest loop: a backoff wait before
re-fetching the same item, a processed item, a skipped item.  The random
politeness delays between items are not events here. -/
inductive HarvestStep
  | retryWait (ms : Nat)
  | processed (url : String)
  | skipped (url : String)
deriving DecidableEq, Repr

/-- The while loop of scrapeSubmissionInfo over (index, retryCount).  Each
pending item is given as its url paired with the number of consecutive
fetch failures its detail page will produce before loading (the fetch
oracle).  On failure: increment retryCount; while it is below half the
walker's budget, wait 30 seconds times retryCount and retry the same
index; otherwise reset retryCount, advance the index, and continue with
the rest.  On success the item is processed and retryCount resets. -/
def scrapeLoop : List (String × Nat) → Nat → List HarvestStep
  | [], _ => []
  | (url, 0) :: rest, _ => .processed url :: scrapeLoop rest 0
  | (url, f + 1) :: rest, retryCount =>
    if retryCount + 1 < maxRetriesScrape / 2 then
      .retryWait (30 * (retryCount + 1) * 1000) ::
        scrapeLoop ((url, f) :: rest) (retryCount + 1)
    else .skipped url :: scrapeLoop rest 0
termination_by l _ => l.foldr (fun p acc => p.2 + 1 + acc) 0
decreasing_by all_goals simp_arith [List.foldr]

/-- Per-item behaviour as the specification describes it, for comparison
with scrapeLoop: an item whose page loads within the budget of
maxRetriesScrape / 2 attempts is processed after linear-backoff waits of
30 seconds times the attempt number; an item still failing at the budget
is skipped after the budget's worth of waits. -/
def itemTraceSpec (p : String × Nat) : List HarvestStep :=
  if p.2 + 1 ≤ maxRetriesScrape / 2 then
    ((List.range p.2).map (fun k => .retryWait (30 * (k + 1) * 1000))) ++
      [.processed p.1]
  else
    ((List.range (maxRetriesScrape / 2 - 1)).map
        (fun k => .retryWait (30 * (k + 1) * 1000))) ++ [.skipped p.1]

/-- Environment of the C1 scenario in which every transfer attempt fails
with a transport or disk-write error: probes succeed, streams never do. -/
def envAllFail : DlEnv :=
  { stopNow := false, urlExists := true, siteActive := true,
    streamOk := fun _ => false }

/-- Environment in which the transfer fails twice and succeeds on the
third attempt (retryCount 2). -/
def envThirdTry : DlEnv :=
  { stopNow := false, urlExists := true, siteActive := true,
    streamOk := fun n => decide (2 ≤ n) }

/-- A queued content item: discovered, harvested, content not saved. -/
def rowA : SubRow :=
  { url := "viewA", id := some "A", content_url := some "cdnA",
    content_name := some "a.png", username := some "artist",
    account_name := some "artist" }

/-- Store holding just rowA. -/
def storeA : Store := { subdata := [rowA] }

/-- A saved row whose moved_content flag is still clear. -/
def rowU : SubRow :=
  { url := "viewU", id := some "U", content_url := some "cdnU",
    content_name := some "u.png", username := some "artist",
    account_name := some "artist" }

/-- Store holding just rowU. -/
def storeU : Store := { subdata := [rowU] }

/-- A record with a malformed (trailing-period) content name, marked
saved: exactly what getAllInvalidFiles returns. -/
def rowInv : SubRow :=
  { url := "viewI", id := some "I", content_url := some "cdnI",
    content_name := some "broken.", username := some "artist",
    account_name := some "artist", is_content_saved := true }

/-- Store holding just rowInv. -/
def storeInv : Store := { subdata := [rowInv] }

/-- Filesystem holding rowInv's recorded file. -/
def fsInv : List String := [invalidFileLocation rowInv]

/-- The twenty links scraped from page 1 of the walk scenario. -/
def scenarioLinks : List String :=
  (List.range 20).map (fun i => "link" ++ toString i)

/-- A fully downloaded known submission for walk-scenario link number i. -/
def knownRow (i : Nat) : SubRow :=
  { url := "link" ++ toString i, id := some (toString i),
    username := some "artist", account_name := some "artist",
    content_url := some ("cdn" ++ toString i),
    content_name := some ("file" ++ toString i ++ ".png"),
    is_content_saved := true, moved_content := true }

/-- Walk-scenario store: links 0 through 4 already known and downloaded. -/
def scenarioStore : Store := { subdata := (List.range 5).map knownRow }

/-- The walk of the scenario: page 1 carries the twenty links, page 2 is
empty, counters start at zero. -/
def scenarioWalk : WalkResult :=
  walkPages "artist" false [scenarioLinks, []] scenarioStore 0 0

/-- Store for the favorites witness: two submissions awaiting a flag. -/
def storeFav : Store :=
  { subdata := [{ url := "viewF1" }, { url := "viewF2" }] }

/-- Verification-side predicate: a per-row update that keeps the url and
never clears the sticky flags content_missing, thumbnail_missing and
moved_content. -/
def PreservesSticky (f : SubRow → SubRow) : Prop :=
  ∀ r : SubRow, (f r).url = r.url ∧
    (r.content_missing = true → (f r).content_missing = true) ∧
    (r.thumbnail_missing = true → (f r).thumbnail_missing = true) ∧
    (r.moved_content = true → (f r).moved_content = true)

/-- A row whose content_missing flag is set, for instantiating the sticky
invariant. -/
def rowM : SubRow :=
  { url := "viewM", content_url := some "cdnM", content_name := some "m.png",
    content_missing := true, thumbnail_missing := true, moved_content := true }

/-- Store holding just rowM. -/
def storeM : Store := { subdata := [rowM] }

theorem preservesSticky_contentSavedRow (cu : String) :
    PreservesSticky (contentSavedRow cu) := by
  intro r; unfold contentSavedRow; split <;> simp

theorem preservesSticky_contentNotSavedRow (cu : String) :
    PreservesSticky (contentNotSavedRow cu) := by
  intro r; unfold contentNotSavedRow; split <;> simp

theorem preservesSticky_contentMovedRow (cn : String) :
    PreservesSticky (contentMovedRow cn) := by
  intro r; unfold contentMovedRow; split <;> simp

theorem preservesSticky_contentMissingRow (cn : String) :
    PreservesSticky (contentMissingRow cn) := by
  intro r; unfold contentMissingRow; split <;> simp

theorem preservesSticky_thumbnailMissingRow (tu : String) :
    PreservesSticky (thumbnailMissingRow tu) := by
  intro r; unfold thumbnailMissingRow; split <;> simp

theorem preservesSticky_thumbnailSavedRow (u tu tn : String) :
    PreservesSticky (thumbnailSavedRow u tu tn) := by
  intro r; unfold thumbnailSavedRow; split <;> simp

theorem preservesSticky_harvestMetaRow (u : String) (d : HarvestData) :
    PreservesSticky (harvestMetaRow u d) := by
  intro r; unfold harvestMetaRow; split <;> simp

theorem preservesSticky_favoriteMetaRow (u f : String) :
    PreservesSticky (favoriteMetaRow u f) := by
  intro r; unfold favoriteMetaRow; split <;> simp

theorem preservesSticky_markFavoriteRow (un v : String) :
    PreservesSticky (markFavoriteRow un v) := by
  intro r; unfold markFavoriteRow; split <;> simp

/-- Membership in a mapped subdata list comes from a source row with the
same url and no sticky flag cleared. -/
theorem mem_map_origin {f : SubRow → SubRow} (hf : PreservesSticky f)
    {l : List SubRow} {r' : SubRow} (h : r' ∈ l.map f) :
    ∃ r ∈ l, r.url = r'.url ∧
      (r.content_missing = true → r'.content_missing = true) ∧
      (r.thumbnail_missing = true → r'.thumbnail_missing = true) ∧
      (r.moved_content = true → r'.moved_content = true) := by
  rcases List.mem_map.1 h with ⟨r, hr, rfl⟩
  exact ⟨r, hr, (hf r).1.symm, (hf r).2.1, (hf r).2.2.1, (hf r).2.2.2⟩

/-- A row of the store after saveLinks ran is either an original row or a
fresh row whose url was absent from the original store. -/
theorem mem_saveLinksApply : ∀ (ls : List String) (b : Bool) (un : String)
    (s : Store) (r' : SubRow), r' ∈ (saveLinksApply ls b un s).subdata →
    r' ∈ s.subdata ∨ ∀ r ∈ s.subdata, r.url ≠ r'.url := by
  intro ls
  induction ls with
  | nil => intro b un s r' h; exact Or.inl h
  | cons l ls ih =>
    intro b un s r' h
    have h1 : r' ∈ (saveLinksApply ls b un (insertLinkRow un b s l)).subdata := h
    rcases ih b un (insertLinkRow un b s l) r' h1 with h2 | h2
    · by_cases hc : s.subdata.any (fun r => r.url == l)
      · left; simpa [insertLinkRow, hc] using h2
      · have h3 : r' ∈ s.subdata ∨ r' =
            { url := l, username := some un, is_scrap := b,
              is_content_saved := false } := by
          simpa [insertLinkRow, hc] using h2
        rcases h3 with h3 | h3
        · exact Or.inl h3
        · right
          intro r hr hurl
          have hrl : r.url = l := by rw [hurl, h3]
          rw [List.any_eq_true] at hc
          exact hc ⟨r, hr, by simp [hrl]⟩
    · right
      intro r hr hurl
      refine h2 r ?_ hurl
      by_cases hc : s.subdata.any (fun r => r.url == l) <;>
        simp [insertLinkRow, hc, hr]

/-- A row of the store after the favorite-flag fold of saveFavorites comes
from an original row with the same url and no sticky flag cleared. -/
theorem mem_markFavorite_fold : ∀ (vs : List String) (un : String) (s : Store)
    (r' : SubRow), r' ∈ (vs.foldl (fun st u => markFavorite un u st) s).subdata →
    ∃ r ∈ s.subdata, r.url = r'.url ∧
      (r.content_missing = true → r'.content_missing = true) ∧
      (r.thumbnail_missing = true → r'.thumbnail_missing = true) ∧
      (r.moved_content = true → r'.moved_content = true) := by
  intro vs
  induction vs with
  | nil => intro un s r' h; exact ⟨r', h, rfl, id, id, id⟩
  | cons v vs ih =>
    intro un s r' h
    rcases ih un (markFavorite un v s) r' h with ⟨r1, hr1, hurl, h1, h2, h3⟩
    rcases mem_map_origin (preservesSticky_markFavoriteRow un v) hr1 with
      ⟨r, hr, hurl0, g1, g2, g3⟩
    exact ⟨r, hr, hurl0.trans hurl, fun hx => h1 (g1 hx), fun hx => h2 (g2 hx),
      fun hx => h3 (g3 hx)⟩

/-- How db saveFavorites settles: either the store is untouched (the two
null paths and the rolled-back error path), or it committed and the final
store is the favorite-flag fold over the store holding the inserted
relations. -/
theorem saveFavorites_cases (un : String) (links : List (Option String)) (s : Store) :
    (((saveFavorites un links s).1 = FavOutcome.nullRes ∨
      (saveFavorites un links s).1 = FavOutcome.errRes) ∧
     (saveFavorites un links s).2 = s) ∨
    ((saveFavorites un links s).1 = FavOutcome.okRes links.length ∧
     ∃ favs, insertFavRows ((links.filterMap id).map
         (fun u => FavRow.mk (un ++ "_" ++ u) un u)) s.favorites = some favs ∧
       (saveFavorites un links s).2 = (links.filterMap id).foldl
         (fun st u => markFavorite un u st) { s with favorites := favs }) := by
  by_cases h1 : links.isEmpty
  · left; constructor
    · left; simp [saveFavorites, h1]
    · simp [saveFavorites, h1]
  · by_cases h2 : (links.filterMap id).isEmpty
    · left; constructor
      · left; simp [saveFavorites, h1, h2]
      · simp [saveFavorites, h1, h2]
    · cases hins : insertFavRows ((links.filterMap id).map
          (fun u => FavRow.mk (un ++ "_" ++ u) un u)) s.favorites with
      | none =>
        left; constructor
        · right; simp [saveFavorites, h1, h2, hins]
        · simp [saveFavorites, h1, h2, hins]
      | some favs =>
        right
        refine ⟨?_, favs, rfl, ?_⟩ <;> simp [saveFavorites, h1, h2, hins]

/-- Every row of the store after a pipeline operation either descends from
an original row with the same url and no sticky flag cleared, or is a
fresh row whose url was absent beforehand. -/
theorem applyOp_origin (op : Op) (s : Store) (r' : SubRow)
    (h : r' ∈ (applyOp op s).subdata) :
    (∃ r ∈ s.subdata, r.url = r'.url ∧
      (r.content_missing = true → r'.content_missing = true) ∧
      (r.thumbnail_missing = true → r'.thumbnail_missing = true) ∧
      (r.moved_content = true → r'.moved_content = true)) ∨
    (∀ r ∈ s.subdata, r.url ≠ r'.url) := by
  cases op with
  | opContentSaved cu =>
    exact Or.inl (mem_map_origin (preservesSticky_contentSavedRow cu) h)
  | opContentNotSaved cu =>
    exact Or.inl (mem_map_origin (preservesSticky_contentNotSavedRow cu) h)
  | opContentMoved cn =>
    exact Or.inl (mem_map_origin (preservesSticky_contentMovedRow cn) h)
  | opContentMissing cn =>
    exact Or.inl (mem_map_origin (preservesSticky_contentMissingRow cn) h)
  | opThumbnailMissing tu =>
    exact Or.inl (mem_map_origin (preservesSticky_thumbnailMissingRow tu) h)
  | opThumbnailSaved u tu tn =>
    exact Or.inl (mem_map_origin (preservesSticky_thumbnailSavedRow u tu tn) h)
  | opHarvestMeta u d =>
    exact Or.inl (mem_map_origin (preservesSticky_harvestMetaRow u d) h)
  | opFavoriteMeta u f =>
    exact Or.inl (mem_map_origin (preservesSticky_favoriteMetaRow u f) h)
  | opSaveLinks links b un =>
    rcases mem_saveLinksApply links b un s r' h with h2 | h2
    · exact Or.inl ⟨r', h2, rfl, id, id, id⟩
    · exact Or.inr h2
  | opSaveFavorites un links =>
    rcases saveFavorites_cases un links s with ⟨_, heq⟩ | ⟨_, favs, _, heq⟩
    · rw [applyOp, heq] at h
      exact Or.inl ⟨r', h, rfl, id, id, id⟩
    · rw [applyOp, heq] at h
      have h2 := mem_markFavorite_fold (links.filterMap id) un
        { s with favorites := favs } r' h
      exact Or.inl h2
  | opDeleteSubmission u =>
    rw [applyOp, deleteSubmission] at h
    exact Or.inl ⟨r', (List.mem_filter.1 h).1, rfl, id, id, id⟩

/-- Sorting by content name does not change membership. -/
theorem mem_sortByNameDesc {l : List SubRow} {r : SubRow} :
    r ∈ sortByNameDesc l ↔ r ∈ l :=
  (List.perm_insertionSort _ l).mem_iff

/-- A row returned by getAllUnsavedContent passed the query's WHERE
clause. -/
theorem mem_getAllUnsavedContent {name : Option String} {s : Store} {r : SubRow}
    (h : r ∈ getAllUnsavedContent name s) :
    r ∈ s.subdata ∧ r.is_content_saved = false ∧ r.content_missing = false ∧
    r.content_url.isSome = true ∧ notLikeEndsWithDot r.content_name = true := by
  rw [getAllUnsavedContent, mem_sortByNameDesc] at h
  have h2 := List.mem_filter.1 h
  have h3 := h2.2
  simp only [Bool.and_eq_true, Bool.not_eq_true'] at h3
  exact ⟨h2.1, h3.1.1.1.1, h3.1.1.1.2, h3.1.1.2, h3.1.2⟩

/-- A row returned by getAllUnsavedThumbnails passed the query's WHERE
clause. -/
theorem mem_getAllUnsavedThumbnails {s : Store} {r : SubRow}
    (h : r ∈ getAllUnsavedThumbnails s) :
    r ∈ s.subdata ∧ r.is_thumbnail_saved = false ∧ r.thumbnail_missing = false := by
  rw [getAllUnsavedThumbnails, mem_sortByNameDesc] at h
  have h2 := List.mem_filter.1 h
  have h3 := h2.2
  simp only [Bool.and_eq_true, Bool.not_eq_true'] at h3
  exact ⟨h2.1, h3.1.1.1, h3.1.2⟩

/-- A row returned by getAllUnmovedContentData passed the query's WHERE
clause. -/
theorem mem_getAllUnmovedContentData {s : Store} {r : SubRow}
    (h : r ∈ getAllUnmovedContentData s) :
    r ∈ s.subdata ∧ r.is_content_saved = true ∧ r.moved_content = false := by
  have h2 := List.mem_filter.1 h
  have h3 := h2.2
  simp only [Bool.and_eq_true, Bool.not_eq_true'] at h3
  exact ⟨h2.1, h3.1, h3.2⟩

/-- C2, counterexample.  The claim says saveMetaData rejects, with an
immediately raised ValidationError, any field name outside an allow-listed
set of column names, applying no update.  In the code there is no such
allow-list: a field name that merely fails the alphanumeric-or-underscore
pattern (here one with a space) is silently dropped — alone it yields the
warn-and-return-null outcome, and next to a valid field the update still
runs on the remainder; while a pattern-conforming name that is not a
column of subdata at all is accepted into the generated SET clause. -/
theorem saveMetaDataNoValidationErrorCounterexample :
    saveMetaData "u" [("bad key", some "x")] = MetaOutcome.noValidData ∧
    saveMetaData "u" [("bad key", some "x"), ("title", some "t")] =
      MetaOutcome.update ["title = ?"] ["t", "u"] ∧
    ("bogus_column" ∉ subdataColumns) ∧
    saveMetaData "u" [("bogus_column", some "x")] =
      MetaOutcome.update ["bogus_column = ?"] ["x", "u"] := by
  refine ⟨by decide, by decide, by decide, by decide⟩

/-- C2, amended.  saveMetaData screens field names only against the
anchored alphanumeric-or-underscore pattern (and drops fields whose value
is null or undefined): such an entry is silently discarded — removing it
never changes the outcome — and the update proceeds with whatever fields
remain, never raising a validation error for an unknown field name. -/
theorem saveMetaDataDropsInvalidKeys (url k : String) (v : Option String)
    (d : List (String × Option String))
    (h : validKey k = false ∨ v = none) :
    saveMetaData url ((k, v) :: d) = saveMetaData url d := by
  unfold saveMetaData
  have hc : ((k, v).2.isSome && validKey (k, v).1) = false := by
    rcases h with h | h <;> simp [h]
  have hf : List.filter (fun kv => kv.2.isSome && validKey kv.1) ((k, v) :: d) =
      List.filter (fun kv => kv.2.isSome && validKey kv.1) d := by
    rw [List.filter_cons, hc]; simp
  simp only [hf]

/-- Witness for the C2 amended theorem at a concrete input. -/
theorem saveMetaDataDropsInvalidKeysWitness :
    saveMetaData "u" [("bad key", some "x"), ("title", some "t")] =
      saveMetaData "u" [("title", some "t")] :=
  saveMetaDataDropsInvalidKeys "u" "bad key" (some "x") [("title", some "t")]
    (Or.inl (by decide))

/-- C4, counterexample.  The claim says the moved_content flag is advanced
from 0 to 1 only by the reconciler's reorganize pass, and in particular
that the operation marking content saved after a download does not set it.
But setContentSaved on a row whose moved_content is 0 sets it to 1. -/
theorem setContentSavedSetsMovedCounterexample :
    rowU.moved_content = false ∧
    (setContentSaved "cdnU" storeU).subdata =
      [{ rowU with is_content_saved := true, moved_content := true }] := by
  refine ⟨by decide, by decide⟩

/-- C4, amended.  The download-save operation does set moved_content: on
every row matching the content url, setContentSaved sets is_content_saved
and moved_content together, so the Unmoved-to-Moved transition is also
performed outside the reconciler's reorganize pass. -/
theorem setContentSavedSetsMovedAmended (cu : String) (s : Store) (r : SubRow)
    (hr : r ∈ (setContentSaved cu s).subdata) (hcu : r.content_url = some cu) :
    r.is_content_saved = true ∧ r.moved_content = true := by
  rcases List.mem_map.1 hr with ⟨r0, _, rfl⟩
  by_cases h : r0.content_url == some cu
  · simp [contentSavedRow, h]
  · rw [contentSavedRow, if_neg (by simpa using h)] at hcu ⊢
    exact absurd (beq_iff_eq.2 hcu) (by simpa using h)

/-- Witness for the C4 amended theorem at a concrete input. -/
theorem setContentSavedSetsMovedAmendedWitness :
    ({ rowU with is_content_saved := true, moved_content := true } : SubRow).is_content_saved = true ∧
    ({ rowU with is_content_saved := true, moved_content := true } : SubRow).moved_content = true :=
  setContentSavedSetsMovedAmended "cdnU" storeU
    { rowU with is_content_saved := true, moved_content := true }
    (by decide) (by decide)

/-- C9, confirmed.  saveLinks with an empty url list builds an INSERT
statement whose VALUES clause has no rows; that is not valid SQL, so the
operation fails (the promise rejects) instead of succeeding silently, and
no row is written. -/
theorem saveLinksEmptyRejects (isScraps : Bool) (username : String) (s : Store) :
    saveLinks [] isScraps username s = Except.error DbErr.emptyValues ∧
    ∀ s2 : Store, saveLinks [] isScraps username s ≠ Except.ok s2 := by
  refine ⟨rfl, ?_⟩
  intro s2 h
  exact absurd h (by simp [saveLinks, runInsertSubdata])

/-- C10, confirmed.  setContentNotSaved sets moved_content to 1 while
clearing is_content_saved; every row of getAllUnmovedContentData has
moved_content 0; and no pipeline operation ever clears a set moved_content
flag of an existing url — so a record reset by the invalid-file prune pass
is excluded from the reconciler's unmoved-content query from then on. -/
theorem setContentNotSavedExcludesFromUnmoved :
    (∀ (cu : String) (s : Store) (r : SubRow),
      r ∈ (setContentNotSaved cu s).subdata → r.content_url = some cu →
      r.is_content_saved = false ∧ r.moved_content = true) ∧
    (∀ (s : Store) (r : SubRow), r ∈ getAllUnmovedContentData s →
      r.is_content_saved = true ∧ r.moved_content = false) ∧
    (∀ (op : Op) (s : Store) (u : String),
      (∃ r ∈ s.subdata, r.url = u) →
      (∀ r ∈ s.subdata, r.url = u → r.moved_content = true) →
      ∀ r' ∈ (applyOp op s).subdata, r'.url = u → r'.moved_content = true) := by
  refine ⟨?_, ?_, ?_⟩
  · intro cu s r hr hcu
    rcases List.mem_map.1 hr with ⟨r0, _, rfl⟩
    by_cases h : r0.content_url == some cu
    · simp [contentNotSavedRow, h]
    · rw [contentNotSavedRow, if_neg (by simpa using h)] at hcu ⊢
      exact absurd (beq_iff_eq.2 hcu) (by simpa using h)
  · intro s r hr
    exact (mem_getAllUnmovedContentData hr).2
  · intro op s u hex hall r' hr' hurl
    rcases applyOp_origin op s r' hr' with ⟨r, hr, hru, _, _, h3⟩ | habs
    · exact h3 (hall r hr (hru.trans hurl))
    · rcases hex with ⟨r, hr, hru⟩
      exact absurd (hru.trans hurl.symm) (habs r hr)

/-- Witness for the C10 theorem at a concrete input. -/
theorem setContentNotSavedExcludesFromUnmovedWitness :
    ({ rowU with is_content_saved := false, moved_content := true } : SubRow).is_content_saved = false ∧
    ({ rowU with is_content_saved := false, moved_content := true } : SubRow).moved_content = true :=
  setContentNotSavedExcludesFromUnmoved.1 "cdnU" storeU
    { rowU with is_content_saved := false, moved_content := true }
    (by decide) (by decide)

/-- C1, code-bug demonstration.  The claim (with the specification) says
that exhausting the download retry budget of 5 leaves the item Unsaved and
eligible for the next poll.  In the code, the catch handler of
downloadSetup returns undefined once retryCount reaches maxRetries, which
FULFILLS the promise, so downloadSpecificContent's then-handler runs
db setContentSaved: after six consecutive transient failures the item is
marked saved (and, is_content_saved being 1, it is excluded from the next
getAllUnsavedContent poll).  The final conjunct checks the claim's
other half, which the code does satisfy: two transient failures followed
by a success on the third attempt also end with the item marked saved. -/
theorem downloadRetryExhaustionMarksSaved :
    downloadSetup envAllFail "a.png" "artist" = DlResult.resolvedNothing ∧
    (downloadSpecificContent envAllFail rowA storeA).1 =
      { subdata := [{ rowA with is_content_saved := true, moved_content := true }] } ∧
    getAllUnsavedContent none (downloadSpecificContent envAllFail rowA storeA).1 = [] ∧
    (downloadSpecificContent envThirdTry rowA storeA).1 =
      { subdata := [{ rowA with is_content_saved := true, moved_content := true }] } := by
  refine ⟨by decide, by decide, by decide, by decide⟩

/-- C3, counterexample.  In the scenario — page 1 yields the twenty links
of scenarioLinks, five of which (link0 through link4) are already present
in the store fully downloaded, page 2 yields zero links — the claim
predicts 15 persisted, newLinks 15, and a final report of 35 found, 15
new, 20 already downloaded.  The code filters through
isSubmissionProcessed, which returns false even for the known link0, so
all twenty links survive the filter: newLinks is 20, the store grows from
5 to 20 rows (the store's url conflict-ignore clause, not the filter,
prevents duplicates), and the walk reports 20 found, 20 new, 0 already
downloaded. -/
theorem walkDedupScenarioCounterexample :
    ("link0" ∈ scenarioLinks) ∧
    (∃ r ∈ scenarioStore.subdata, r.url = "link0") ∧
    isSubmissionProcessed scenarioStore "link0" "artist" = false ∧
    scenarioWalk.newLinks = 20 ∧
    scenarioWalk.store.subdata.length = 20 ∧
    walkReport scenarioWalk = (20, 20, 0) ∧
    walkReport scenarioWalk ≠ (35, 15, 20) := by
  refine ⟨by decide, by decide, by decide, by decide, by decide, by decide,
    by decide⟩

/-- C3, amended.  The walker's filter checks full processing (record
present, content saved, file on disk), not mere presence, and as written
it returns false on every input — its on-disk branch dereferences an
undefined name and the caught error falls through to return false — so no
scraped link is ever filtered out before persisting and new-submission
accounting counts every scraped link; deduplication happens only at
insert, through the store's unique-url conflict-ignore clause.  In the
scenario, 15 new rows are persisted but newLinks is 20 and the walk
reports 20 found, 20 new, 0 already downloaded. -/
theorem walkFilterNeverFiltersScenario :
    (∀ (s : Store) (l u : String), isSubmissionProcessed s l u = false) ∧
    scenarioWalk.newLinks = 20 ∧
    scenarioWalk.store.subdata.length = 20 ∧
    walkReport scenarioWalk = (20, 20, 0) := by
  refine ⟨?_, by decide, by decide, by decide⟩
  intro s l u
  unfold isSubmissionProcessed
  dsimp only
  repeat first
    | rfl
    | split

/-- C5, confirmed.  Once content_missing (resp. thumbnail_missing) is set
on the rows of a url, no pipeline operation clears it — updates preserve
it, deletion removes the row, and re-insertion of a present url is
conflict-ignored — and every row a getAllUnsavedContent
(resp. getAllUnsavedThumbnails) poll returns has the flag clear, so a
missing-marked item is never again selected for download. -/
theorem missingFlagsStickyAndExcluded :
    (∀ (op : Op) (s : Store) (u : String),
      (∃ r ∈ s.subdata, r.url = u) →
      (∀ r ∈ s.subdata, r.url = u → r.content_missing = true) →
      ∀ r' ∈ (applyOp op s).subdata, r'.url = u → r'.content_missing = true) ∧
    (∀ (op : Op) (s : Store) (u : String),
      (∃ r ∈ s.subdata, r.url = u) →
      (∀ r ∈ s.subdata, r.url = u → r.thumbnail_missing = true) →
      ∀ r' ∈ (applyOp op s).subdata, r'.url = u → r'.thumbnail_missing = true) ∧
    (∀ (name : Option String) (s : Store) (r : SubRow),
      r ∈ getAllUnsavedContent name s → r.content_missing = false) ∧
    (∀ (s : Store) (r : SubRow),
      r ∈ getAllUnsavedThumbnails s → r.thumbnail_missing = false) := by
  refine ⟨?_, ?_, ?_, ?_⟩
  · intro op s u hex hall r' hr' hurl
    rcases applyOp_origin op s r' hr' with ⟨r, hr, hru, h1, _, _⟩ | habs
    · exact h1 (hall r hr (hru.trans hurl))
    · rcases hex with ⟨r, hr, hru⟩
      exact absurd (hru.trans hurl.symm) (habs r hr)
  · intro op s u hex hall r' hr' hurl
    rcases applyOp_origin op s r' hr' with ⟨r, hr, hru, _, h2, _⟩ | habs
    · exact h2 (hall r hr (hru.trans hurl))
    · rcases hex with ⟨r, hr, hru⟩
      exact absurd (hru.trans hurl.symm) (habs r hr)
  · intro name s r hr
    exact (mem_getAllUnsavedContent hr).2.2.1
  · intro s r hr
    exact (mem_getAllUnsavedThumbnails hr).2.2

/-- Witness for the C5 theorem at a concrete input. -/
theorem missingFlagsStickyAndExcludedWitness :
    (contentSavedRow "cdnM" rowM).content_missing = true :=
  missingFlagsStickyAndExcluded.1 (Op.opContentSaved "cdnM") storeM "viewM"
    ⟨rowM, by decide, by decide⟩ (by decide)
    (contentSavedRow "cdnM" rowM) (by decide) (by decide)

/-- Presence of a (username, url) relation in the favorites table is
preserved by the remaining rows of the favorites INSERT: the REPLACE
branch re-establishes the very pair it removes. -/
theorem insertFavRows_pair_mono : ∀ (rows favs favs' : List FavRow),
    insertFavRows rows favs = some favs' →
    ∀ a b : String, (∃ f ∈ favs, f.username = a ∧ f.url = b) →
    ∃ f ∈ favs', f.username = a ∧ f.url = b := by
  intro rows
  induction rows with
  | nil =>
    intro favs favs' h a b hp
    rw [insertFavRows] at h
    cases h
    exact hp
  | cons r rest ih =>
    intro favs favs' h a b hp
    rw [insertFavRows] at h
    by_cases h1 : favs.any (fun e => e.username == r.username && e.url == r.url)
    · rw [if_pos h1] at h
      refine ih _ _ h a b ?_
      by_cases hab : r.username = a ∧ r.url = b
      · exact ⟨r, by simp, hab.1, hab.2⟩
      · rcases hp with ⟨f, hf, hfa, hfb⟩
        have hfs : (!(f.username == r.username && f.url == r.url)) = true := by
          by_cases hu : f.username = r.username
          · by_cases hv : f.url = r.url
            · exact absurd ⟨hu.symm.trans hfa, hv.symm.trans hfb⟩ hab
            · simp [hv]
          · simp [hu]
        exact ⟨f, List.mem_append.2 (Or.inl (List.mem_filter.2 ⟨hf, hfs⟩)),
          hfa, hfb⟩
    · rw [if_neg h1] at h
      by_cases h2 : favs.any (fun e => e.id == r.id)
      · rw [if_pos h2] at h
        cases h
      · rw [if_neg h2] at h
        rcases hp with ⟨f, hf, hfa, hfb⟩
        exact ih _ _ h a b ⟨f, List.mem_append.2 (Or.inl hf), hfa, hfb⟩

/-- Every row handed to the favorites INSERT ends up present, as a
(username, url) relation, when the statement succeeds. -/
theorem insertFavRows_all_present : ∀ (rows favs favs' : List FavRow),
    insertFavRows rows favs = some favs' →
    ∀ fr ∈ rows, ∃ f ∈ favs', f.username = fr.username ∧ f.url = fr.url := by
  intro rows
  induction rows with
  | nil =>
    intro favs favs' _ fr hfr
    cases hfr
  | cons r rest ih =>
    intro favs favs' h fr hfr
    rw [insertFavRows] at h
    by_cases h1 : favs.any (fun e => e.username == r.username && e.url == r.url)
    · rw [if_pos h1] at h
      rcases List.mem_cons.1 hfr with rfl | hfr'
      · exact insertFavRows_pair_mono rest _ favs' h _ _ ⟨fr, by simp, rfl, rfl⟩
      · exact ih _ _ h fr hfr'
    · rw [if_neg h1] at h
      by_cases h2 : favs.any (fun e => e.id == r.id)
      · rw [if_pos h2] at h
        cases h
      · rw [if_neg h2] at h
        rcases List.mem_cons.1 hfr with rfl | hfr'
        · exact insertFavRows_pair_mono rest _ favs' h _ _ ⟨fr, by simp, rfl, rfl⟩
        · exact ih _ _ h fr hfr'

/-- The favorite-flag fold of saveFavorites leaves the favorites table
untouched. -/
theorem markFavorite_fold_favorites : ∀ (vs : List String) (un : String) (s : Store),
    (vs.foldl (fun st u => markFavorite un u st) s).favorites = s.favorites := by
  intro vs
  induction vs with
  | nil => intro un s; rfl
  | cons w vs ih =>
    intro un s
    rw [List.foldl_cons, ih]
    rfl

/-- A favorite flag set for a url is kept by further markFavorite calls. -/
theorem markFavorite_fold_flags : ∀ (vs : List String) (un : String) (s : Store)
    (v : String),
    (∀ r ∈ s.subdata, r.url = v →
      r.is_favorite = true ∧ r.favorite_username = some un) →
    ∀ r ∈ (vs.foldl (fun st u => markFavorite un u st) s).subdata, r.url = v →
      r.is_favorite = true ∧ r.favorite_username = some un := by
  intro vs
  induction vs with
  | nil => intro un s v hinv; exact hinv
  | cons w vs ih =>
    intro un s v hinv
    rw [List.foldl_cons]
    refine ih un (markFavorite un w s) v ?_
    intro r hr hurl
    rcases List.mem_map.1 hr with ⟨r0, hr0, rfl⟩
    by_cases hc : r0.url == w
    · simp [markFavoriteRow, hc]
    · rw [markFavoriteRow, if_neg (by simpa using hc)] at hurl ⊢
      exact hinv r0 hr0 hurl

/-- markFavorite for a url establishes the favorite flag on every row of
that url. -/
theorem markFavorite_estab (un v : String) (s : Store) :
    ∀ r ∈ (markFavorite un v s).subdata, r.url = v →
      r.is_favorite = true ∧ r.favorite_username = some un := by
  intro r hr hurl
  rcases List.mem_map.1 hr with ⟨r0, _, rfl⟩
  by_cases hc : r0.url == v
  · simp [markFavoriteRow, hc]
  · rw [markFavoriteRow, if_neg (by simpa using hc)] at hurl
    exact absurd (beq_iff_eq.2 hurl) (by simpa using hc)

/-- After the favorite-flag fold, every row of a url that occurs in the
fold's list carries the flag. -/
theorem markFavorite_fold_sets : ∀ (vs : List String) (un : String) (s : Store)
    (v : String), v ∈ vs →
    ∀ r ∈ (vs.foldl (fun st u => markFavorite un u st) s).subdata, r.url = v →
      r.is_favorite = true ∧ r.favorite_username = some un := by
  intro vs
  induction vs with
  | nil =>
    intro un s v hv
    cases hv
  | cons w vs ih =>
    intro un s v hv
    rw [List.foldl_cons]
    rcases List.mem_cons.1 hv with rfl | hv'
    · exact markFavorite_fold_flags vs un (markFavorite un v s) v
        (markFavorite_estab un v s)
    · exact ih un (markFavorite un w s) v hv'

/-- C6, confirmed.  saveFavorites is transactional: on the null paths and
on any statement error the store is exactly as before (the source rolls
the transaction back), and when it commits, every valid url of the list —
the invalid entries having been skipped — has its favorite relation in the
favorites table and its Submission rows flagged is_favorite with the
favorite username; no partial commit that loses previously valid rows can
be observed. -/
theorem saveFavoritesAllOrNothing :
    (∀ (un : String) (links : List (Option String)) (s : Store),
      ((saveFavorites un links s).1 = FavOutcome.errRes ∨
       (saveFavorites un links s).1 = FavOutcome.nullRes) →
      (saveFavorites un links s).2 = s) ∧
    (∀ (un : String) (links : List (Option String)) (s : Store) (c : Nat),
      (saveFavorites un links s).1 = FavOutcome.okRes c →
      ∀ v : String, some v ∈ links →
        (∃ f ∈ (saveFavorites un links s).2.favorites,
          f.username = un ∧ f.url = v) ∧
        (∀ r ∈ (saveFavorites un links s).2.subdata, r.url = v →
          r.is_favorite = true ∧ r.favorite_username = some un)) := by
  constructor
  · intro un links s h
    rcases saveFavorites_cases un links s with ⟨_, heq⟩ | ⟨hok, _⟩
    · exact heq
    · rcases h with h | h <;> rw [hok] at h <;> cases h
  · intro un links s c hok v hv
    rcases saveFavorites_cases un links s with ⟨hno, _⟩ | ⟨_, favs, hins, heq⟩
    · rcases hno with h | h <;> rw [h] at hok <;> cases hok
    · have hvv : v ∈ links.filterMap id := List.mem_filterMap.2 ⟨some v, hv, rfl⟩
      constructor
      · rw [heq, markFavorite_fold_favorites]
        have hfr : FavRow.mk (un ++ "_" ++ v) un v ∈
            (links.filterMap id).map (fun u => FavRow.mk (un ++ "_" ++ u) un u) :=
          List.mem_map.2 ⟨v, hvv, rfl⟩
        exact insertFavRows_all_present _ _ favs hins _ hfr
      · rw [heq]
        intro r hr hurl
        exact markFavorite_fold_sets (links.filterMap id) un _ v hvv r hr hurl

/-- Witness for the C6 theorem at a concrete input: one invalid entry
among two valid urls, every valid relation and flag committed. -/
theorem saveFavoritesAllOrNothingWitness :
    ({ url := "viewF1", is_favorite := true,
       favorite_username := some "alice" } : SubRow).is_favorite = true ∧
    ({ url := "viewF1", is_favorite := true,
       favorite_username := some "alice" } : SubRow).favorite_username = some "alice" :=
  (saveFavoritesAllOrNothing.2 "alice" [some "viewF1", none, some "viewF2"]
      storeFav 3 (by decide) "viewF1" (by decide)).2
    { url := "viewF1", is_favorite := true, favorite_username := some "alice" }
    (by decide) (by decide)

/-- The prune loop only ever removes paths from the filesystem. -/
theorem mem_deleteLoop_fs : ∀ (L : List SubRow) (s : Store) (fsys : List String)
    (p : String), p ∈ (deleteLoop L s fsys).2 → p ∈ fsys := by
  intro L
  induction L with
  | nil => intro s fsys p h; exact h
  | cons f rest ih =>
    intro s fsys p h
    exact (List.mem_filter.1 (ih _ _ p h)).1

/-- Once every row of a content url is reset, a further setContentNotSaved
call (for any url) keeps it reset. -/
theorem contentNotSaved_keeps_reset (cu cu' : String) (s : Store)
    (h : ∀ r ∈ s.subdata, r.content_url = some cu →
      r.is_content_saved = false ∧ r.moved_content = true) :
    ∀ r ∈ (setContentNotSaved cu' s).subdata, r.content_url = some cu →
      r.is_content_saved = false ∧ r.moved_content = true := by
  intro r hr hcu
  rcases List.mem_map.1 hr with ⟨r0, hr0, rfl⟩
  by_cases hc : r0.content_url == some cu'
  · simp [contentNotSavedRow, hc]
  · rw [contentNotSavedRow, if_neg (by simpa using hc)] at hcu ⊢
    exact h r0 hr0 hcu

/-- setContentNotSaved for a url resets every row of that url. -/
theorem contentNotSaved_estab (cu : String) (s : Store) :
    ∀ r ∈ (setContentNotSaved cu s).subdata, r.content_url = some cu →
      r.is_content_saved = false ∧ r.moved_content = true := by
  intro r hr hcu
  rcases List.mem_map.1 hr with ⟨r0, _, rfl⟩
  by_cases hc : r0.content_url == some cu
  · simp [contentNotSavedRow, hc]
  · rw [contentNotSavedRow, if_neg (by simpa using hc)] at hcu
    exact absurd (beq_iff_eq.2 hcu) (by simpa using hc)

/-- The prune loop keeps every already-reset content url reset. -/
theorem deleteLoop_keeps_reset : ∀ (L : List SubRow) (s : Store)
    (fsys : List String) (cu : String),
    (∀ r ∈ s.subdata, r.content_url = some cu →
      r.is_content_saved = false ∧ r.moved_content = true) →
    ∀ r ∈ (deleteLoop L s fsys).1.subdata, r.content_url = some cu →
      r.is_content_saved = false ∧ r.moved_content = true := by
  intro L
  induction L with
  | nil => intro s fsys cu h; exact h
  | cons f rest ih =>
    intro s fsys cu h
    exact ih _ _ cu (contentNotSaved_keeps_reset cu _ s h)

/-- Effect of the prune loop on each broken record it visits: its recorded
file is gone from the filesystem and every row of its content url is
reset. -/
theorem deleteLoop_effect : ∀ (L : List SubRow) (s : Store) (fsys : List String)
    (f : SubRow) (cu : String), f ∈ L → f.content_url = some cu →
    invalidFileLocation f ∉ (deleteLoop L s fsys).2 ∧
    ∀ r ∈ (deleteLoop L s fsys).1.subdata, r.content_url = some cu →
      r.is_content_saved = false ∧ r.moved_content = true := by
  intro L
  induction L with
  | nil =>
    intro s fsys f cu hf
    cases hf
  | cons g rest ih =>
    intro s fsys f cu hf hcu
    rcases List.mem_cons.1 hf with rfl | hf'
    · constructor
      · intro hmem
        have h2 := mem_deleteLoop_fs rest _ _ _ hmem
        simp [List.mem_filter] at h2
      · show ∀ r ∈ (deleteLoop rest (setContentNotSaved (f.content_url.getD "") s)
            (fsys.filter (fun p => p ≠ invalidFileLocation f))).1.subdata,
          r.content_url = some cu →
          r.is_content_saved = false ∧ r.moved_content = true
        refine deleteLoop_keeps_reset rest _ _ cu ?_
        have hgd : f.content_url.getD "" = cu := by rw [hcu]; rfl
        rw [hgd]
        exact contentNotSaved_estab cu s
    · exact ih _ _ f cu hf' hcu

/-- C7, counterexample.  The claim says the invalid-file prune makes the
reset item eligible for re-acquisition by a subsequent unsaved-content
poll.  For the store holding rowInv (content name with a trailing period,
marked saved) the prune does delete the file and clear is_content_saved —
but the next getAllUnsavedContent poll still returns nothing, because the
query excludes rows whose content_name ends with a period: the item is
never re-selected for download. -/
theorem pruneInvalidNotReacquiredCounterexample :
    (deleteInvalidFiles storeInv fsInv).2 = [] ∧
    (deleteInvalidFiles storeInv fsInv).1.subdata =
      [{ rowInv with is_content_saved := false, moved_content := true }] ∧
    getAllUnsavedContent none (deleteInvalidFiles storeInv fsInv).1 = [] := by
  refine ⟨by decide, by decide, by decide⟩

/-- C7, amended.  deleteInvalidFiles removes the on-disk file of every
record whose content name has a trailing period and resets its saved flag
(also setting moved_content) — but the item does NOT become eligible for
re-acquisition: the unsaved-content poll filters out every row whose
content name ends with a period, so such items stay unselected until
their recorded name changes. -/
theorem pruneInvalidResetsButExcluded :
    (∀ (s : Store) (fsys : List String) (f : SubRow) (cu : String),
      f ∈ getAllInvalidFiles s → f.content_url = some cu →
      invalidFileLocation f ∉ (deleteInvalidFiles s fsys).2 ∧
      ∀ r ∈ (deleteInvalidFiles s fsys).1.subdata, r.content_url = some cu →
        r.is_content_saved = false ∧ r.moved_content = true) ∧
    (∀ (name : Option String) (s : Store) (r : SubRow),
      r ∈ getAllUnsavedContent name s →
      notLikeEndsWithDot r.content_name = true) := by
  constructor
  · intro s fsys f cu hf hcu
    exact deleteLoop_effect (getAllInvalidFiles s) s fsys f cu hf hcu
  · intro name s r hr
    exact (mem_getAllUnsavedContent hr).2.2.2.2

/-- Witness for the C7 amended theorem at a concrete input. -/
theorem pruneInvalidResetsButExcludedWitness :
    invalidFileLocation rowInv ∉ (deleteInvalidFiles storeInv fsInv).2 :=
  (pruneInvalidResetsButExcluded.1 storeInv fsInv rowInv "cdnI"
    (by decide) (by decide)).1

/-- One item's worth of the harvest loop: with f failures pending at the
head and the retry counter fresh, the loop emits exactly the item trace
the specification predicts, then continues with the rest of the batch. -/
theorem scrapeLoop_item (url : String) (f : Nat) (rest : List (String × Nat)) :
    scrapeLoop ((url, f) :: rest) 0 = itemTraceSpec (url, f) ++ scrapeLoop rest 0 := by
  match f with
  | 0 => simp [scrapeLoop, itemTraceSpec, maxRetriesScrape]
  | 1 => simp [scrapeLoop, itemTraceSpec, maxRetriesScrape, List.range_succ]
  | 2 => simp [scrapeLoop, itemTraceSpec, maxRetriesScrape, List.range_succ]
  | (f + 3) => simp [scrapeLoop, itemTraceSpec, maxRetriesScrape, List.range_succ]

/-- C8, confirmed.  The metadata-harvest loop behaves per item exactly as
specified: a detail page that fails to load is retried with linear backoff
of 30 seconds times the attempt number while the retry counter stays below
half the walker's budget (6 / 2 = 3); an item that still fails at that
budget is skipped — the index advances and the counter resets — and the
rest of the batch is processed unaffected: the whole trace is the
concatenation of independent per-item traces. -/
theorem harvestSkipOneItemContract (items : List (String × Nat)) :
    scrapeLoop items 0 = items.foldr (fun p acc => itemTraceSpec p ++ acc) [] := by
  induction items with
  | nil => simp [scrapeLoop]
  | cons p rest ih =>
    rw [List.foldr_cons, ← ih]
    exact scrapeLoop_item p.1 p.2 rest
